import Mathlib

/-!
# authik-go: session-token verification

A shallow embedding of `authik.go`, `errors.go`, `types.go` and `api.go`.

The Go code is stateful in two ways: the client owns a mutable key-set cache, and
it talks to the outside world (wall clock, HTTP).  Both are made explicit: every
operation takes the `Client` and a `World` and returns the new ones.  The
libraries the code calls (`net/http`, `encoding/json`, `jwx/jwk`, `jwx/jwt`) are not
part of the repository; they are taken as parameters, bundled in `Ext`.
-/

namespace Authik

/-! ## Time -/

/-- A `time.Time` instant, counted in nanoseconds; the zero value of `time.Time` is `0`. -/
abbrev Time := Int

/-- Go's `t.After(u)`: `t` is strictly later than `u`. -/
def Time.After (t u : Time) : Bool := decide (u < t)

/-- Go's `t.Add(d)` for a duration `d` in nanoseconds. -/
def Time.Add (t : Time) (d : Int) : Time := t + d

/-- Constant `version` of authik.go. -/
def version : String := "0.1.0"

/-- Constant `jwksDefaultCacheDuration = time.Hour` of authik.go, in nanoseconds. -/
def jwksDefaultCacheDuration : Int := 3600000000000

/-! ## api.go, types.go, errors.go -/

/-- Struct `APIError` of api.go (its field `Type` is `Typ` here, `Type` being reserved). -/
structure APIError where
  Resource : String
  Typ : String
  Code : String
  Message : String
  deriving DecidableEq

/-- Struct `SessionToken` of types.go. -/
structure SessionToken where
  UserID : String
  SessionID : String
  IssuedAt : Time
  ExpiresAt : Time
  Value : String
  deriving DecidableEq

/-- Go `error` values that the package can hand to its caller.

* the three sentinels of errors.go (each a distinct `errors.New` value);
* `wrapped text cause`: the value built by `fmt.Errorf("%w: %s", cause, ...)`, whose
  `Error()` string is `text` and whose `Unwrap()` is `cause`;
* `api e`: a `*APIError`;
* `foreign text`: an error produced by `net/http`, `io/ioutil` or `encoding/json`
  (those libraries know nothing of this package's sentinels). -/
inductive Error where
  | ErrSessionTokenMissing
  | ErrSessionTokenExpired
  | ErrSessionTokenInvalid
  | wrapped (text : String) (cause : Error)
  | api (e : APIError)
  | foreign (text : String)
  deriving DecidableEq

/-- The method `Error()` on the values this file formats (the sentinels' texts are those
of errors.go). `APIError.Error()` marshals the struct to JSON; the code under study never
formats one, so its text is left to the `marshal` parameter. -/
def Error.text (marshal : APIError → String) : Error → String
  | .ErrSessionTokenMissing =>
      "authik: provided request did not have a session token in its cookies"
  | .ErrSessionTokenExpired => "authik: session token has expired"
  | .ErrSessionTokenInvalid => "authik: session token is invalid"
  | .wrapped text _ => text
  | .api e => marshal e
  | .foreign text => text

/-- Go's `errors.Is(err, target)`: `err` or some error in its `Unwrap` chain equals
`target`. -/
def errorsIs : Error → Error → Bool
  | .wrapped text cause, target =>
      decide (Error.wrapped text cause = target) || errorsIs cause target
  | err, target => decide (err = target)

/-! ## The outside world -/

/-- An outbound `*http.Request`, as far as authik.go builds it. -/
structure Request where
  Method : String
  URL : String
  Header : List (String × String)
  deriving DecidableEq

/-- An `*http.Response`, as far as authik.go reads it: the status code, and what
`ioutil.ReadAll(res.Body)` yields (the bytes, or a read error). -/
structure Response where
  StatusCode : Int
  Body : Except String String

/-- What `http.DefaultClient.Do(req)` hands back: `(res, err)` with `err != nil` (then
`res` may or may not be nil), or `(res, nil)` with a response.  `elapsed` is the time the
round trip took, in nanoseconds. -/
inductive DoResult where
  | failed (elapsed : Nat) (res : Option Response) (err : String)
  | done (elapsed : Nat) (res : Response)

/-- The state of the world around the client: the reading of the wall clock, and the
log of the requests handed to `http.DefaultClient.Do` so far (newest first). -/
structure World where
  now : Time
  sent : List Request

/-- A verification failure of `jwt.ParseString`, seen through the only observations
authik.go makes of it. -/
structure JWTError where
  /-- Value of `jwt.IsValidationError(err)`. -/
  IsValidationError : Bool
  /-- Value of `errors.Is(err, jwt.ErrTokenExpired())`. -/
  IsTokenExpired : Bool
  /-- Value of `errors.Is(err, jwt.ErrInvalidIssuedAt())`. -/
  IsInvalidIssuedAt : Bool
  /-- Value of `errors.Is(err, jwt.ErrTokenNotYetValid())`. -/
  IsTokenNotYetValid : Bool
  /-- Value of `err.Error()`. -/
  text : String
  deriving DecidableEq

/-- A dynamically typed claim value (a Go `interface{}` decoded from JSON): a string, a
number, a boolean, nil, an array or an object (the last two kept as raw text). -/
inductive Claim where
  | str (s : String)
  | num (n : Int)
  | bool (b : Bool)
  | null
  | arr (raw : String)
  | obj (raw : String)
  deriving DecidableEq

/-- The name of the dynamic Go type of a claim value, as a failed type assertion
prints it. -/
def Claim.goType : Claim → String
  | .str _ => "string"
  | .num _ => "float64"
  | .bool _ => "bool"
  | .null => "nil"
  | .arr _ => "[]interface \x7b\x7d"
  | .obj _ => "map[string]interface \x7b\x7d"

/-- A verified `jwt.Token`, as far as authik.go reads it. -/
structure Payload where
  Subject : String
  IssuedAt : Time
  Expiration : Time
  PrivateClaims : List (String × Claim)
  deriving DecidableEq

/-- Method `payload.Get(name)` for a private claim: the value and `ok = true`
(`some v`), or `ok = false` (`none`). -/
def Payload.Get (p : Payload) (name : String) : Option Claim :=
  p.PrivateClaims.lookup name

/-- The libraries authik.go calls, over a type `K` of key sets (`jwk.Set`). -/
structure Ext (K : Type) where
  /-- Function `http.NewRequest(method, url, nil)`: the request, or an error for a bad
  method or URL. -/
  NewRequest : String → String → Except String Request
  /-- Method `http.DefaultClient.Do(req)` in a given world. -/
  Do : World → Request → DoResult
  /-- Call `json.Unmarshal(body, &apiError)` on a zero `APIError`. -/
  unmarshalAPIError : String → Except String APIError
  /-- Function `jwk.NewSet()`. -/
  NewSet : K
  /-- Call `json.Unmarshal(body, &result)` where `result` holds a key set: the returned
  error (`none` for nil) and the key set after the call. -/
  unmarshalSet : String → K → Option String × K
  /-- Call `jwt.ParseString(token, jwt.WithValidate(true), jwt.WithKeySet(jwks))` in a
  given world. -/
  ParseString : World → String → K → Except JWTError Payload

/-! ## authik.go -/

/-- Struct `cachedJWKS` of authik.go; a nil `jwks` is `none`. -/
structure cachedJWKS (K : Type) where
  jwks : Option K
  expiresAt : Time

/-- The zero value `&cachedJWKS{}`. -/
def cachedJWKS.empty (K : Type) : cachedJWKS K := ⟨none, 0⟩

/-- Struct `Client` of authik.go. -/
structure Client (K : Type) where
  apiURL : String
  secretKey : String
  cachedJWKS : cachedJWKS K

/-- The outcome of a Go call that returns `(*T, error)`: `(v, nil)`, `(nil, err)`, or a
run-time panic that aborts the call. -/
inductive Ret (α : Type) where
  | ok (v : α)
  | fail (err : Error)
  | panic (text : String)

/-- Function `New` of authik.go: panics unless the key starts with `authik_sk_`
(`strings.HasPrefix`), else builds a client with an empty cache. -/
def New (K : Type) (secretKey : String) : Ret (Client K) :=
  if !("authik_sk_".toList.isPrefixOf secretKey.toList) then
    .panic ("authik: invalid secret key: \x27" ++ secretKey ++ "\x27")
  else
    .ok ⟨"https://api.authik.com", secretKey, cachedJWKS.empty K⟩

/-- What `Client.request` leaves behind: the returned `(*http.Response, error)` pair and
the state of the caller's `result` object. -/
structure RequestReturn (R : Type) where
  res : Option Response
  err : Option Error
  result : R

/-- Lines 152-154 of `Client.request`: the three headers added to the new request. -/
def setHeaders {K : Type} (client : Client K) (req : Request) : Request :=
  { req with Header := req.Header ++
      [("Authorization", "Bearer " ++ client.secretKey),
       ("Content-Type", "application/json"),
       ("X-Authik-Sdk-User-Agent", "authik-go/" ++ version)] }

/-- Method `Client.request` of authik.go.  `unmarshal` is `json.Unmarshal(body, &result)`
for the caller's kind of result object (the returned error, and the object after the
call), `result` the state of the object before the call.  The parameter `data` is never
read by the Go code and is left out. -/
def request {K R : Type} (ext : Ext K) (client : Client K) (w : World)
    (method path : String) (unmarshal : String → R → Option String × R) (result : R) :
    RequestReturn R × World :=
  -- Construct request
  let url := client.apiURL ++ path
  match ext.NewRequest method url with
  | .error err => (⟨none, some (.foreign err), result⟩, w)
  | .ok req =>
    let req := setHeaders client req
    -- Make request
    match ext.Do w req with
    | .failed elapsed res err =>
      (⟨res, some (.foreign err), result⟩, ⟨w.now + elapsed, req :: w.sent⟩)
    | .done elapsed res =>
      let w : World := ⟨w.now + elapsed, req :: w.sent⟩
      -- Parse body
      match res.Body with
      | .error err => (⟨some res, some (.foreign err), result⟩, w)
      | .ok body =>
        -- If response is an error, unmarshal into an APIError
        if res.StatusCode ≥ 400 then
          match ext.unmarshalAPIError body with
          | .error err => (⟨none, some (.foreign err), result⟩, w)
          | .ok apiError => (⟨some res, some (.api apiError), result⟩, w)
        else
          -- If response is successful, unmarshal into the result
          match unmarshal body result with
          | (some err, result) => (⟨some res, some (.foreign err), result⟩, w)
          | (none, result) => (⟨some res, none, result⟩, w)

/-- Lines 64-67 of `Client.VerifySessionToken`: "Clear cache if expired". -/
def clearExpired {K : Type} (client : Client K) (w : World) : Client K :=
  if client.cachedJWKS.jwks.isSome && w.now.After client.cachedJWKS.expiresAt then
    { client with cachedJWKS := cachedJWKS.empty K }
  else
    client

/-- Lines 69-71 of `Client.VerifySessionToken`: the `/jwks` request into a new key set. -/
def fetchJWKS {K : Type} (ext : Ext K) (client : Client K) (w : World) :
    RequestReturn K × World :=
  request ext client w "GET" "/jwks" ext.unmarshalSet ext.NewSet

/-- Lines 82-96 of `Client.VerifySessionToken`: the error returned for a failure `err`
of `jwt.ParseString`. -/
def mapVerifyError (err : JWTError) : Error :=
  if err.IsValidationError then
    if err.IsTokenExpired then .ErrSessionTokenExpired
    else if err.IsInvalidIssuedAt then .ErrSessionTokenInvalid
    else if err.IsTokenNotYetValid then .ErrSessionTokenInvalid
    else .wrapped ("authik: session token is invalid" ++ ": " ++ err.text)
      .ErrSessionTokenInvalid
  else
    .wrapped ("authik: session token is invalid" ++ ": " ++ err.text) .ErrSessionTokenInvalid

/-- The result of a client operation: what it returns, and the client and world it
leaves behind. -/
structure Step (K : Type) where
  ret : Ret SessionToken
  client : Client K
  world : World

/-- Method `Client.VerifySessionToken` of authik.go. -/
def VerifySessionToken {K : Type} (ext : Ext K) (client : Client K) (w : World)
    (token : String) : Step K :=
  -- Clear cache if expired
  let client := clearExpired client w
  -- Construct JWKS
  let fetched := fetchJWKS ext client w
  let w := fetched.2
  match fetched.1.err with
  | some err => ⟨.fail err, client, w⟩
  | none =>
    let jwks := fetched.1.result
    let client : Client K :=
      { client with cachedJWKS := ⟨some jwks, w.now.Add jwksDefaultCacheDuration⟩ }
    -- Verify token
    match ext.ParseString w token jwks with
    | .error err => ⟨.fail (mapVerifyError err), client, w⟩
    | .ok payload =>
      match payload.Get "sid" with
      | none =>
        ⟨.fail (.wrapped ("authik: session token is invalid" ++ ": " ++
            "session token does not contain session ID claim") .ErrSessionTokenInvalid),
          client, w⟩
      | some (.str sessionId) =>
        ⟨.ok ⟨payload.Subject, sessionId, payload.IssuedAt, payload.Expiration, token⟩,
          client, w⟩
      | some sessionId =>
        -- the unchecked type assertion `sessionId.(string)`
        ⟨.panic ("interface conversion: interface \x7b\x7d is " ++ sessionId.goType ++
            ", not string"), client, w⟩

/-- A cookie of an inbound request. -/
structure Cookie where
  Name : String
  Value : String
  deriving DecidableEq

/-- An inbound `*http.Request`, as far as authik.go reads it: its cookies, in header
order. -/
structure InboundRequest where
  Cookies : List Cookie

/-- Method `request.Cookie(name)` of net/http: the first cookie of that name, or
`http.ErrNoCookie` (`none`). -/
def InboundRequest.Cookie (r : InboundRequest) (name : String) : Option Cookie :=
  r.Cookies.find? (fun c => c.Name == name)

/-- Method `Client.VerifySessionTokenRequest` of authik.go. -/
def VerifySessionTokenRequest {K : Type} (ext : Ext K) (client : Client K) (w : World)
    (request : InboundRequest) : Step K :=
  match request.Cookie "authik_session_token" with
  | none => ⟨.fail .ErrSessionTokenMissing, client, w⟩
  | some token =>
    match VerifySessionToken ext client w token.Value with
    | ⟨.ok sessionToken, client, w⟩ => ⟨.ok sessionToken, client, w⟩
    | ⟨.fail err, client, w⟩ => ⟨.fail err, client, w⟩
    | ⟨.panic text, client, w⟩ => ⟨.panic text, client, w⟩

/-! ## A sample backend, for concrete runs -/

/-- A JWKS document with no keys. -/
def sampleJWKSBody : String := "\x7b\"keys\":[]\x7d"

/-- The error body of the specification's rate-limit example. -/
def sampleErrorBody : String :=
  "\x7b\"resource\":\"jwks\",\"type\":\"api_error\",\"code\":\"rate_limited\",\"message\":\"slow down\"\x7d"

/-- A JSON object whose `code` member is a number, where `APIError` has a string. -/
def sampleMistypedBody : String := "\x7b\"code\":1\x7d"

/-- The `APIError` that `sampleErrorBody` decodes to. -/
def sampleAPIError : APIError := ⟨"jwks", "api_error", "rate_limited", "slow down"⟩

/-- A sample environment over key sets represented by their JWKS document.  Every
request is well formed; the backend answers every round trip with `answer`; the JSON
decoder knows the three sample bodies (a JSON object without the fields of `APIError`
decodes to the zero `APIError`, one with a number for `code` is a type error); the JWT
verifier answers `verdict` for every token. -/
def sampleExt (answer : DoResult) (verdict : Except JWTError Payload) : Ext String where
  NewRequest method url := .ok ⟨method, url, []⟩
  Do _ _ := answer
  unmarshalAPIError body :=
    if body = sampleErrorBody then .ok sampleAPIError
    else if body = sampleJWKSBody then .ok ⟨"", "", "", ""⟩
    else if body = sampleMistypedBody then
      .error "json: cannot unmarshal number into Go struct field APIError.code of type string"
    else .error "invalid character"
  NewSet := ""
  unmarshalSet body jwks :=
    if body = sampleJWKSBody then (none, body)
    else (some "failed to unmarshal JWK set", jwks)
  ParseString _ _ _ := verdict

/-- A client as `New` builds it. -/
def sampleClient : Client String := ⟨"https://api.authik.com", "authik_sk_test", ⟨none, 0⟩⟩

/-- A world in which nothing has been sent yet. -/
def sampleWorld : World := ⟨1000, []⟩

/-- A payload with subject, times and a string `sid` claim. -/
def samplePayload : Payload := ⟨"user_1", 900, 5000, [("sid", .str "sess_1")]⟩

/-- The validation failure of an expired token. -/
def sampleExpired : JWTError := ⟨true, true, false, false, "exp not satisfied"⟩

/-- A successful `/jwks` round trip of five milliseconds. -/
def sampleAnswer : DoResult := .done 5000000 ⟨200, .ok sampleJWKSBody⟩

/-- A rate-limited `/jwks` round trip: status 429 with the sample error body. -/
def sampleRateLimited : DoResult := .done 5000000 ⟨429, .ok sampleErrorBody⟩

/-- A round trip answered with status 300 (Multiple Choices, which the HTTP client does
not follow) and a JSON object as body. -/
def sampleMultipleChoices : DoResult := .done 5000000 ⟨300, .ok sampleJWKSBody⟩

/-- A round trip answered with status 500 and the mistyped JSON object as body. -/
def sampleMistyped : DoResult := .done 5000000 ⟨500, .ok sampleMistypedBody⟩

/-- A verification failure other than expiry: the signature does not verify. -/
def sampleBadSignature : JWTError :=
  ⟨false, false, false, false, "failed to verify jws signature"⟩

/-- A payload whose `sid` claim is a number. -/
def sampleNumericSid : Payload := ⟨"user_1", 900, 5000, [("sid", .num 42)]⟩

/-- A client holding a key set whose entry expires at instant 1000. -/
def sampleCachedClient : Client String :=
  ⟨"https://api.authik.com", "authik_sk_test", ⟨some sampleJWKSBody, 1000⟩⟩

/-- A first verification on a new client, at instant 1000. -/
def sampleFirstCall : Step String :=
  VerifySessionToken (sampleExt sampleAnswer (.ok samplePayload)) sampleClient sampleWorld
    "tok"

/-- A second verification on the same client, one second after the first returned. -/
def sampleSecondCall : Step String :=
  VerifySessionToken (sampleExt sampleAnswer (.ok samplePayload)) sampleFirstCall.client
    ⟨sampleFirstCall.world.now + 1000000000, sampleFirstCall.world.sent⟩ "tok"

/-! ## Auxiliary facts -/

/-- The request reads only the API URL and the secret key of the client, so clearing
the cache first does not change the `/jwks` round trip. -/
theorem fetchJWKS_clearExpired {K : Type} (ext : Ext K) (client : Client K) (w : World) :
    fetchJWKS ext (clearExpired client w) w = fetchJWKS ext client w := by
  unfold clearExpired
  split <;> rfl

/-- An error returned by `Client.request` is an `APIError` or comes from a library. -/
theorem request_err_cases {K R : Type} (ext : Ext K) (client : Client K) (w : World)
    (method path : String) (unmarshal : String → R → Option String × R) (result : R)
    (e : Error)
    (h : (request ext client w method path unmarshal result).1.err = some e) :
    (∃ a, e = .api a) ∨ (∃ t, e = .foreign t) := by
  simp only [request] at h
  repeat' split at h
  all_goals
    first
    | exact Or.inr ⟨_, (Option.some.inj h).symm⟩
    | exact Or.inl ⟨_, (Option.some.inj h).symm⟩
    | exact absurd h (by simp)

/-- Neither an `APIError` nor a library error is, or wraps, a given sentinel. -/
theorem errorsIs_api_or_foreign (e target : Error)
    (h : (∃ a, e = .api a) ∨ (∃ t, e = .foreign t))
    (ht : target = .ErrSessionTokenInvalid ∨ target = .ErrSessionTokenExpired) :
    errorsIs e target = false := by
  rcases h with ⟨a, rfl⟩ | ⟨t, rfl⟩ <;> rcases ht with rfl | rfl <;> simp [errorsIs]

/-- What `VerifySessionToken` does when the `/jwks` request fails. -/
theorem VerifySessionToken_of_fetch_err {K : Type} (ext : Ext K) (client : Client K)
    (w : World) (token : String) (e : Error)
    (h : (fetchJWKS ext client w).1.err = some e) :
    VerifySessionToken ext client w token =
      ⟨.fail e, clearExpired client w, (fetchJWKS ext client w).2⟩ := by
  simp only [VerifySessionToken, fetchJWKS_clearExpired, h]

/-- What `VerifySessionToken` does when the `/jwks` request succeeds and the verifier
rejects the token. -/
theorem VerifySessionToken_of_parse_err {K : Type} (ext : Ext K) (client : Client K)
    (w : World) (token : String) (err : JWTError)
    (hfetch : (fetchJWKS ext client w).1.err = none)
    (hparse : ext.ParseString (fetchJWKS ext client w).2 token
      (fetchJWKS ext client w).1.result = .error err) :
    (VerifySessionToken ext client w token).ret = .fail (mapVerifyError err) := by
  simp only [VerifySessionToken, fetchJWKS_clearExpired, hfetch, hparse]

/-- What `VerifySessionToken` does when the `/jwks` request succeeds and the verifier
accepts the token. -/
theorem VerifySessionToken_of_parse_ok {K : Type} (ext : Ext K) (client : Client K)
    (w : World) (token : String) (payload : Payload)
    (hfetch : (fetchJWKS ext client w).1.err = none)
    (hparse : ext.ParseString (fetchJWKS ext client w).2 token
      (fetchJWKS ext client w).1.result = .ok payload) :
    (VerifySessionToken ext client w token).ret =
      match payload.Get "sid" with
      | none =>
        .fail (.wrapped ("authik: session token is invalid" ++ ": " ++
            "session token does not contain session ID claim") .ErrSessionTokenInvalid)
      | some (.str sessionId) =>
        .ok ⟨payload.Subject, sessionId, payload.IssuedAt, payload.Expiration, token⟩
      | some sessionId =>
        .panic ("interface conversion: interface \x7b\x7d is " ++ sessionId.goType ++
            ", not string") := by
  simp only [VerifySessionToken, fetchJWKS_clearExpired, hfetch, hparse]
  split <;> rfl

/-- Every `VerifySessionToken` call whose `/jwks` request is well formed hands exactly
one request to the HTTP client, whatever the cache holds. -/
theorem VerifySessionToken_sent_length {K : Type} (ext : Ext K) (client : Client K)
    (w : World) (token : String) (req : Request)
    (hnew : ext.NewRequest "GET" (client.apiURL ++ "/jwks") = .ok req) :
    (VerifySessionToken ext client w token).world.sent.length = w.sent.length + 1 := by
  have hw : (fetchJWKS ext client w).2.sent.length = w.sent.length + 1 := by
    simp only [fetchJWKS, request, hnew]
    repeat' split
    all_goals simp
  have hworld : (VerifySessionToken ext client w token).world = (fetchJWKS ext client w).2 := by
    simp only [VerifySessionToken, fetchJWKS_clearExpired]
    repeat' split
    all_goals rfl
  rw [hworld, hw]

/-! ## The claims -/

/-- C1: when the `/jwks` fetch succeeds and the JWT verifier rejects the token with the
validation error for a passed expiration, `VerifySessionToken` returns no session token
and exactly `ErrSessionTokenExpired`, which neither is nor wraps `ErrSessionTokenInvalid`. -/
theorem VerifySessionToken_expired {K : Type} (ext : Ext K) (client : Client K)
    (w : World) (token : String) (err : JWTError)
    (hfetch : (fetchJWKS ext client w).1.err = none)
    (hparse : ext.ParseString (fetchJWKS ext client w).2 token
      (fetchJWKS ext client w).1.result = .error err)
    (hval : err.IsValidationError = true) (hexp : err.IsTokenExpired = true) :
    (VerifySessionToken ext client w token).ret = .fail .ErrSessionTokenExpired ∧
    Error.ErrSessionTokenExpired ≠ Error.ErrSessionTokenInvalid ∧
    errorsIs .ErrSessionTokenExpired .ErrSessionTokenInvalid = false := by
  refine ⟨?_, by decide, by decide⟩
  rw [VerifySessionToken_of_parse_err ext client w token err hfetch hparse]
  simp [mapVerifyError, hval, hexp]

/-- Witness of C1: the sample backend with a verifier that reports an expired token. -/
theorem VerifySessionToken_expired_witness :
    (fetchJWKS (sampleExt sampleAnswer (.error sampleExpired)) sampleClient
      sampleWorld).1.err = none ∧
    (VerifySessionToken (sampleExt sampleAnswer (.error sampleExpired)) sampleClient
      sampleWorld "tok").ret = .fail .ErrSessionTokenExpired :=
  ⟨rfl, (VerifySessionToken_expired (sampleExt sampleAnswer (.error sampleExpired))
    sampleClient sampleWorld "tok" sampleExpired rfl rfl rfl rfl).1⟩

/-- C2: when the `/jwks` fetch succeeds and the JWT verifier fails for a reason other than
expiry (any error that is not the validation error for a passed expiration),
`VerifySessionToken` returns no session token and an error that is or wraps
`ErrSessionTokenInvalid`, and that neither is nor wraps `ErrSessionTokenExpired`. -/
theorem VerifySessionToken_invalid {K : Type} (ext : Ext K) (client : Client K)
    (w : World) (token : String) (err : JWTError)
    (hfetch : (fetchJWKS ext client w).1.err = none)
    (hparse : ext.ParseString (fetchJWKS ext client w).2 token
      (fetchJWKS ext client w).1.result = .error err)
    (hother : ¬ (err.IsValidationError = true ∧ err.IsTokenExpired = true)) :
    ∃ e, (VerifySessionToken ext client w token).ret = .fail e ∧
      errorsIs e .ErrSessionTokenInvalid = true ∧
      e ≠ .ErrSessionTokenExpired ∧
      errorsIs e .ErrSessionTokenExpired = false := by
  refine ⟨mapVerifyError err,
    VerifySessionToken_of_parse_err ext client w token err hfetch hparse, ?_⟩
  unfold mapVerifyError
  by_cases hv : err.IsValidationError = true
  · have hx : err.IsTokenExpired = false := by
      cases hq : err.IsTokenExpired
      · rfl
      · exact absurd ⟨hv, hq⟩ hother
    simp only [hv, hx, if_true, Bool.false_eq_true, if_false]
    split
    · simp [errorsIs]
    · split <;> simp [errorsIs]
  · simp [hv, errorsIs]

/-- Witness of C2: the sample backend with a verifier that reports a bad signature. -/
theorem VerifySessionToken_invalid_witness :
    (fetchJWKS (sampleExt sampleAnswer (.error sampleBadSignature)) sampleClient
      sampleWorld).1.err = none ∧
    ∃ e, (VerifySessionToken (sampleExt sampleAnswer (.error sampleBadSignature))
        sampleClient sampleWorld "tok").ret = .fail e ∧
      errorsIs e .ErrSessionTokenInvalid = true ∧
      e ≠ .ErrSessionTokenExpired ∧
      errorsIs e .ErrSessionTokenExpired = false :=
  ⟨rfl, VerifySessionToken_invalid (sampleExt sampleAnswer (.error sampleBadSignature))
    sampleClient sampleWorld "tok" sampleBadSignature rfl rfl (by decide)⟩

/-- C3: when the `/jwks` fetch succeeds and the JWT verifier accepts the token with a
payload whose `sid` claim is the string `d`, `VerifySessionToken` returns (with a nil
error) the session token made of the payload's subject, `d`, the payload's issued-at and
expiration, and the token string itself. -/
theorem VerifySessionToken_ok {K : Type} (ext : Ext K) (client : Client K)
    (w : World) (token : String) (payload : Payload) (d : String)
    (hfetch : (fetchJWKS ext client w).1.err = none)
    (hparse : ext.ParseString (fetchJWKS ext client w).2 token
      (fetchJWKS ext client w).1.result = .ok payload)
    (hsid : payload.Get "sid" = some (.str d)) :
    (VerifySessionToken ext client w token).ret =
      .ok { UserID := payload.Subject, SessionID := d, IssuedAt := payload.IssuedAt,
            ExpiresAt := payload.Expiration, Value := token } := by
  rw [VerifySessionToken_of_parse_ok ext client w token payload hfetch hparse, hsid]

/-- Witness of C3: the sample backend with a verifier that accepts the token. -/
theorem VerifySessionToken_ok_witness :
    (fetchJWKS (sampleExt sampleAnswer (.ok samplePayload)) sampleClient
      sampleWorld).1.err = none ∧
    samplePayload.Get "sid" = some (.str "sess_1") ∧
    (VerifySessionToken (sampleExt sampleAnswer (.ok samplePayload)) sampleClient
      sampleWorld "tok").ret = .ok ⟨"user_1", "sess_1", 900, 5000, "tok"⟩ :=
  ⟨rfl, rfl, VerifySessionToken_ok (sampleExt sampleAnswer (.ok samplePayload))
    sampleClient sampleWorld "tok" samplePayload "sess_1" rfl rfl rfl⟩

/-- C4: for a request without a cookie named `authik_session_token`,
`VerifySessionTokenRequest` returns no session token and exactly
`ErrSessionTokenMissing`, hands no request to the HTTP client (the world, with its log of
sent requests, is unchanged) and leaves the client, hence its cache, unchanged. -/
theorem VerifySessionTokenRequest_missing {K : Type} (ext : Ext K) (client : Client K)
    (w : World) (request : InboundRequest)
    (hno : ∀ c ∈ request.Cookies, c.Name ≠ "authik_session_token") :
    (VerifySessionTokenRequest ext client w request).ret = .fail .ErrSessionTokenMissing ∧
    (VerifySessionTokenRequest ext client w request).world = w ∧
    (VerifySessionTokenRequest ext client w request).world.sent.length = w.sent.length ∧
    (VerifySessionTokenRequest ext client w request).client = client := by
  have hc : request.Cookie "authik_session_token" = none := by
    unfold InboundRequest.Cookie
    rw [List.find?_eq_none]
    intro c hmem
    simpa using hno c hmem
  simp [VerifySessionTokenRequest, hc]

/-- Witness of C4: a request carrying only an unrelated cookie, on a client whose cache
holds a key set. -/
theorem VerifySessionTokenRequest_missing_witness :
    (VerifySessionTokenRequest (sampleExt sampleAnswer (.ok samplePayload))
      sampleCachedClient sampleWorld ⟨[⟨"theme", "dark"⟩]⟩).ret =
        .fail .ErrSessionTokenMissing ∧
    (VerifySessionTokenRequest (sampleExt sampleAnswer (.ok samplePayload))
      sampleCachedClient sampleWorld ⟨[⟨"theme", "dark"⟩]⟩).world.sent.length = 0 :=
  have h := VerifySessionTokenRequest_missing (sampleExt sampleAnswer (.ok samplePayload))
    sampleCachedClient sampleWorld ⟨[⟨"theme", "dark"⟩]⟩ (by decide)
  ⟨h.1, h.2.2.1⟩

/-- C5: a run of the code against the claim.  A new client (empty cache) verifies a
token at instant 1000: one request is sent and the key set is cached until one hour
later.  One second after the first call returned, with the cache entry present and
unexpired, the same client verifies again: a second request is sent, where the claim
says none. -/
theorem VerifySessionToken_second_call_fetches :
    New String "authik_sk_test" = .ok sampleClient ∧
    sampleWorld.sent.length = 0 ∧
    sampleFirstCall.ret = .ok ⟨"user_1", "sess_1", 900, 5000, "tok"⟩ ∧
    sampleFirstCall.world.sent.length = 1 ∧
    sampleFirstCall.client.cachedJWKS.jwks = some sampleJWKSBody ∧
    sampleFirstCall.client.cachedJWKS.expiresAt = 1000 + 5000000 + 3600000000000 ∧
    sampleFirstCall.world.now + 1000000000 < sampleFirstCall.client.cachedJWKS.expiresAt ∧
    sampleSecondCall.ret = .ok ⟨"user_1", "sess_1", 900, 5000, "tok"⟩ ∧
    sampleSecondCall.world.sent.length = 2 := by
  refine ⟨rfl, rfl, rfl, rfl, rfl, rfl, by decide, rfl, rfl⟩

/-- C6: when the `/jwks` request returns an error `e`, `VerifySessionToken` returns no
session token and `e` itself (an `APIError` with the very fields it was parsed with, or a
library error), and `e` neither is nor wraps `ErrSessionTokenInvalid` or
`ErrSessionTokenExpired`. -/
theorem VerifySessionToken_fetch_error {K : Type} (ext : Ext K) (client : Client K)
    (w : World) (token : String) (e : Error)
    (hfetch : (fetchJWKS ext client w).1.err = some e) :
    (VerifySessionToken ext client w token).ret = .fail e ∧
    ((∃ a, e = .api a) ∨ (∃ t, e = .foreign t)) ∧
    e ≠ .ErrSessionTokenInvalid ∧ e ≠ .ErrSessionTokenExpired ∧
    errorsIs e .ErrSessionTokenInvalid = false ∧
    errorsIs e .ErrSessionTokenExpired = false := by
  have hcases := request_err_cases ext client w "GET" "/jwks" ext.unmarshalSet ext.NewSet e
    hfetch
  refine ⟨?_, hcases, ?_, ?_, errorsIs_api_or_foreign e _ hcases (Or.inl rfl),
    errorsIs_api_or_foreign e _ hcases (Or.inr rfl)⟩
  · rw [VerifySessionToken_of_fetch_err ext client w token e hfetch]
  · rcases hcases with ⟨a, rfl⟩ | ⟨t, rfl⟩ <;> simp
  · rcases hcases with ⟨a, rfl⟩ | ⟨t, rfl⟩ <;> simp

/-- Witness of C6: the backend answers the `/jwks` request with status 429 and the
rate-limit error body; the caller receives that `APIError`, field for field. -/
theorem VerifySessionToken_fetch_error_witness :
    (fetchJWKS (sampleExt sampleRateLimited (.ok samplePayload)) sampleClient
      sampleWorld).1.err = some (.api ⟨"jwks", "api_error", "rate_limited", "slow down"⟩) ∧
    (VerifySessionToken (sampleExt sampleRateLimited (.ok samplePayload)) sampleClient
      sampleWorld "tok").ret =
        .fail (.api ⟨"jwks", "api_error", "rate_limited", "slow down"⟩) :=
  ⟨rfl, (VerifySessionToken_fetch_error (sampleExt sampleRateLimited (.ok samplePayload))
    sampleClient sampleWorld "tok" (.api ⟨"jwks", "api_error", "rate_limited", "slow down"⟩)
    rfl).1⟩

/-- C7: when the `/jwks` request made by `VerifySessionToken` fails, the cache entry after
the call is the entry held before the call or the empty entry. -/
theorem VerifySessionToken_fetch_error_cache {K : Type} (ext : Ext K) (client : Client K)
    (w : World) (token : String) (e : Error)
    (hfetch : (fetchJWKS ext client w).1.err = some e) :
    (VerifySessionToken ext client w token).client.cachedJWKS = client.cachedJWKS ∨
    (VerifySessionToken ext client w token).client.cachedJWKS = cachedJWKS.empty K := by
  rw [VerifySessionToken_of_fetch_err ext client w token e hfetch]
  unfold clearExpired
  split
  · exact Or.inr rfl
  · exact Or.inl rfl

/-- Witness of C7: a rate-limited fetch on a client with an unexpired cached key set;
the entry is the one held before. -/
theorem VerifySessionToken_fetch_error_cache_witness :
    (fetchJWKS (sampleExt sampleRateLimited (.ok samplePayload)) sampleCachedClient
      sampleWorld).1.err = some (.api sampleAPIError) ∧
    ((VerifySessionToken (sampleExt sampleRateLimited (.ok samplePayload))
        sampleCachedClient sampleWorld "tok").client.cachedJWKS =
          sampleCachedClient.cachedJWKS ∨
     (VerifySessionToken (sampleExt sampleRateLimited (.ok samplePayload))
        sampleCachedClient sampleWorld "tok").client.cachedJWKS =
          cachedJWKS.empty String) :=
  ⟨rfl, VerifySessionToken_fetch_error_cache
    (sampleExt sampleRateLimited (.ok samplePayload)) sampleCachedClient sampleWorld "tok"
    (.api sampleAPIError) rfl⟩

/-- C8, as stated, fails, at two responses whose body is a JSON object.  With status 300
(outside 200..299) and a body that decodes as an `APIError`, `request` returns no error
at all and decodes the body into the caller's result object.  With status 500 and a body
whose `code` member is a number, `request` returns the decoder's error, not an
`APIError`. -/
theorem request_non2xx_counterexample :
    (¬ ((200 : Int) ≤ 300 ∧ (300 : Int) ≤ 299) ∧
     (sampleExt sampleMultipleChoices (.ok samplePayload)).unmarshalAPIError sampleJWKSBody =
       .ok ⟨"", "", "", ""⟩ ∧
     (request (sampleExt sampleMultipleChoices (.ok samplePayload)) sampleClient sampleWorld
       "GET" "/jwks" (sampleExt sampleMultipleChoices (.ok samplePayload)).unmarshalSet
         "").1.err = none ∧
     (request (sampleExt sampleMultipleChoices (.ok samplePayload)) sampleClient sampleWorld
       "GET" "/jwks" (sampleExt sampleMultipleChoices (.ok samplePayload)).unmarshalSet
         "").1.result = sampleJWKSBody) ∧
    (¬ ((200 : Int) ≤ 500 ∧ (500 : Int) ≤ 299) ∧
     (request (sampleExt sampleMistyped (.ok samplePayload)) sampleClient sampleWorld
       "GET" "/jwks" (sampleExt sampleMistyped (.ok samplePayload)).unmarshalSet
         "").1.err = some (.foreign
           "json: cannot unmarshal number into Go struct field APIError.code of type string") ∧
     ¬ ∃ a, (request (sampleExt sampleMistyped (.ok samplePayload)) sampleClient sampleWorld
       "GET" "/jwks" (sampleExt sampleMistyped (.ok samplePayload)).unmarshalSet
         "").1.err = some (.api a)) := by
  refine ⟨⟨by decide, rfl, rfl, rfl⟩, by decide, rfl, ?_⟩
  rintro ⟨a, h⟩
  have h2 : some (Error.foreign
      "json: cannot unmarshal number into Go struct field APIError.code of type string") =
      some (Error.api a) := h
  cases h2

/-- C8, amended: for every response whose body could be read, `request` returns an
`APIError` `a` if and only if the status is at least 400 and the body decodes as the
`APIError` `a`.  With status at least 400 the caller's result object is left as it was,
and a body that does not decode as an `APIError` gives the decoder's error.  With status
below 400, 2xx or not, the body is decoded into the result object and the decoder's
error, if any, is returned. -/
theorem request_APIError_iff {K R : Type} (ext : Ext K) (client : Client K) (w : World)
    (method path : String) (unmarshal : String → R → Option String × R) (result : R)
    (req : Request) (elapsed : Nat) (res : Response) (body : String)
    (hnew : ext.NewRequest method (client.apiURL ++ path) = .ok req)
    (hdo : ext.Do w (setHeaders client req) = .done elapsed res)
    (hbody : res.Body = .ok body) :
    (∀ a, (request ext client w method path unmarshal result).1.err = some (.api a) ↔
      (res.StatusCode ≥ 400 ∧ ext.unmarshalAPIError body = .ok a)) ∧
    (res.StatusCode ≥ 400 →
      (request ext client w method path unmarshal result).1.result = result) ∧
    (res.StatusCode ≥ 400 → ∀ t, ext.unmarshalAPIError body = .error t →
      (request ext client w method path unmarshal result).1.err = some (.foreign t)) ∧
    (res.StatusCode < 400 →
      (request ext client w method path unmarshal result).1.result =
        (unmarshal body result).2 ∧
      (request ext client w method path unmarshal result).1.err =
        (unmarshal body result).1.map Error.foreign) := by
  by_cases hs : res.StatusCode ≥ 400
  · have hlt : ¬ res.StatusCode < 400 := not_lt.mpr hs
    cases hjson : ext.unmarshalAPIError body with
    | error t =>
      have hr : (request ext client w method path unmarshal result).1 =
          ⟨none, some (.foreign t), result⟩ := by
        simp only [request, hnew, hdo, hbody, hs, if_true, hjson]
      simp [hr, hs, hlt]
    | ok a =>
      have hr : (request ext client w method path unmarshal result).1 =
          ⟨some res, some (.api a), result⟩ := by
        simp only [request, hnew, hdo, hbody, hs, if_true, hjson]
      simp [hr, hs, hlt]
  · have hlt : res.StatusCode < 400 := not_le.mp hs
    have hr : (request ext client w method path unmarshal result).1 =
        ⟨some res, (unmarshal body result).1.map Error.foreign,
          (unmarshal body result).2⟩ := by
      simp only [request, hnew, hdo, hbody, hs, if_false]
      rcases hu : unmarshal body result with ⟨_ | err, result'⟩ <;> rfl
    rw [hr]
    refine ⟨?_, fun h => absurd h hs, fun h => absurd h hs, fun _ => ⟨rfl, rfl⟩⟩
    intro a
    constructor
    · intro h
      rcases hu : (unmarshal body result).1 with _ | err <;> simp [hu] at h
    · intro h
      exact absurd h.1 hs

/-- Witness of C8, amended: the rate-limited round trip (status 429, the sample error
body) yields the sample `APIError` and leaves the result object as it was. -/
theorem request_APIError_iff_witness :
    (request (sampleExt sampleRateLimited (.ok samplePayload)) sampleClient sampleWorld
      "GET" "/jwks" (sampleExt sampleRateLimited (.ok samplePayload)).unmarshalSet
        "").1.err = some (.api sampleAPIError) ∧
    (request (sampleExt sampleRateLimited (.ok samplePayload)) sampleClient sampleWorld
      "GET" "/jwks" (sampleExt sampleRateLimited (.ok samplePayload)).unmarshalSet
        "").1.result = "" :=
  have h := request_APIError_iff (sampleExt sampleRateLimited (.ok samplePayload))
    sampleClient sampleWorld "GET" "/jwks"
    (sampleExt sampleRateLimited (.ok samplePayload)).unmarshalSet ""
    ⟨"GET", "https://api.authik.com/jwks", []⟩ 5000000 ⟨429, .ok sampleErrorBody⟩
    sampleErrorBody rfl rfl rfl
  ⟨(h.1 sampleAPIError).mpr ⟨by decide, rfl⟩, h.2.1 (by decide)⟩

/-- C9: a run of the code against the claim.  The fetch succeeds and the verifier
accepts the token with a payload whose `sid` claim is the number 42; the call panics on
the type assertion instead of returning an error that wraps `ErrSessionTokenInvalid`. -/
theorem VerifySessionToken_numeric_sid_panics :
    sampleNumericSid.Get "sid" = some (.num 42) ∧
    (VerifySessionToken (sampleExt sampleAnswer (.ok sampleNumericSid)) sampleClient
      sampleWorld "tok").ret =
        .panic "interface conversion: interface \x7b\x7d is float64, not string" := by
  exact ⟨rfl, rfl⟩

/-- C10, as stated, fails: an entry holding a key set whose `expiresAt` equals the
current time is kept, not discarded. -/
theorem clearExpired_boundary_counterexample :
    sampleWorld.now = sampleCachedClient.cachedJWKS.expiresAt ∧
    (clearExpired sampleCachedClient sampleWorld).cachedJWKS.jwks = some sampleJWKSBody ∧
    (clearExpired sampleCachedClient sampleWorld).cachedJWKS.expiresAt = 1000 := by
  exact ⟨rfl, rfl, rfl⟩

/-- C10, amended: at the start of `VerifySessionToken` the cache entry is kept if and only
if it holds no key set or the current time is not after its `expiresAt`; an entry with a
key set is kept if and only if the current time is at most `expiresAt`, and an entry
that is not kept is replaced by the empty entry. -/
theorem clearExpired_kept_iff {K : Type} (client : Client K) (w : World) :
    ((clearExpired client w).cachedJWKS = client.cachedJWKS ↔
      (client.cachedJWKS.jwks = none ∨ w.now ≤ client.cachedJWKS.expiresAt)) ∧
    (client.cachedJWKS.jwks.isSome = true →
      ((clearExpired client w).cachedJWKS = client.cachedJWKS ↔
        w.now ≤ client.cachedJWKS.expiresAt)) ∧
    ((clearExpired client w).cachedJWKS ≠ client.cachedJWKS →
      (clearExpired client w).cachedJWKS = cachedJWKS.empty K) := by
  obtain ⟨url, key, ⟨jwks, expiresAt⟩⟩ := client
  cases jwks with
  | none => simp [clearExpired]
  | some ks =>
    by_cases h : w.now ≤ expiresAt
    · have h2 : ¬ expiresAt < w.now := not_lt.mpr h
      simp [clearExpired, Time.After, h, h2]
    · have h2 : expiresAt < w.now := not_le.mp h
      simp [clearExpired, Time.After, h, h2, cachedJWKS.empty]

/-- Witness of C10, amended: an entry with a key set, read at the very instant it
expires, is kept. -/
theorem clearExpired_kept_iff_witness :
    sampleCachedClient.cachedJWKS.jwks.isSome = true ∧
    sampleWorld.now ≤ sampleCachedClient.cachedJWKS.expiresAt ∧
    (clearExpired sampleCachedClient sampleWorld).cachedJWKS =
      sampleCachedClient.cachedJWKS :=
  ⟨rfl, by decide,
    ((clearExpired_kept_iff sampleCachedClient sampleWorld).2.1 rfl).mpr (by decide)⟩

end Authik
